import Mathlib

/-!
Verification development for the Conductor project-billing backend
(`app/utils.py`, `app/routers/contracts.py`, `app/routers/invoices.py`,
`app/routers/proposals.py`).

The relational store is embedded shallowly: each table is a list of rows,
each row a structure.  Monetary amounts (SQL `numeric`, Python `Decimal`)
are modelled as exact rationals; timestamps are naturals ordered like the
ISO strings the code compares with `ORDER BY created_at`.  Randomly
generated row ids (`generate_id`) and the current time are passed in as
parameters.  Columns that only feed the out-of-scope Google-Sheets /
activity-log glue (`updated_at`, sheet bookkeeping inside handlers) are
not represented.  Each handler is a function from the store (plus request
data) to `Except HttpError`, mirroring FastAPI's `HTTPException` aborting
the transaction before `db.commit()`: an error result leaves no writes.
Two request models (`InvoiceFromContract`, `InvoiceUpdate`) lack fields
their handlers read; those endpoints are embedded as they run — raising
an unhandled `AttributeError` (HTTP 500) before any write — not as the
handler bodies intend.
-/

/-- Errors surfaced to the client.  `notFound` and `badRequest` are
raised via `HTTPException`; `serverError` models an unhandled Python
exception (FastAPI returns HTTP 500 and the transaction is never
committed, so nothing is written). -/
inductive HttpError where
  | notFound (detail : String)
  | badRequest (detail : String)
  | serverError (detail : String)
deriving DecidableEq

/-- Row of `projects` (fields used by the billing core). -/
structure Project where
  id : String
  job_code : Option String
  project_number : Option String
  status : String
  current_invoice_id : Option String
  deleted_at : Option Nat
deriving DecidableEq

/-- Row of `contracts`. -/
structure Contract where
  id : String
  project_id : String
  total_amount : ℚ
  signed_at : Option Nat
  file_path : Option String
  notes : Option String
  created_at : Nat
  deleted_at : Option Nat
deriving DecidableEq

/-- Row of `contract_tasks` (`billed_amount`/`billed_percent` are stored
columns, overwritten on read by `_compute_task_billing`). -/
structure ContractTask where
  id : String
  contract_id : String
  sort_order : Nat
  name : String
  description : Option String
  amount : ℚ
  billed_amount : ℚ
  billed_percent : ℚ
deriving DecidableEq

/-- Row of `invoices`. -/
structure Invoice where
  id : String
  invoice_number : String
  project_id : String
  contract_id : Option String
  previous_invoice_id : Option String
  type : String
  description : Option String
  total_due : ℚ
  sent_status : String
  paid_status : String
  sent_at : Option Nat
  paid_at : Option Nat
  created_at : Nat
  deleted_at : Option Nat
deriving DecidableEq

/-- Row of `invoice_line_items`. -/
structure LineItem where
  id : String
  invoice_id : String
  sort_order : Nat
  name : String
  description : Option String
  quantity : ℚ
  unit_price : ℚ
  amount : ℚ
  previous_billing : ℚ
  created_at : Nat
deriving DecidableEq

/-- Row of `proposals` (fields used by promotion). -/
structure Proposal where
  id : String
  project_id : String
  total_fee : ℚ
  status : String
  deleted_at : Option Nat
deriving DecidableEq

/-- Row of `proposal_tasks`. -/
structure ProposalTask where
  id : String
  proposal_id : String
  sort_order : Nat
  name : String
  description : Option String
  amount : ℚ
deriving DecidableEq

/-- The relational store. -/
structure DB where
  projects : List Project
  contracts : List Contract
  contract_tasks : List ContractTask
  invoices : List Invoice
  invoice_line_items : List LineItem
  proposals : List Proposal
  proposal_tasks : List ProposalTask
deriving DecidableEq

/-! ### List helpers (structural recursion so terms reduce by `rfl`) -/

/-- Insert into a list sorted by `le` (stable). -/
def insertSorted (le : α → α → Bool) (a : α) : List α → List α
  | [] => [a]
  | b :: bs => if le a b then a :: b :: bs else b :: insertSorted le a bs

/-- Insertion sort, modelling SQL `ORDER BY`. -/
def sortByLe (le : α → α → Bool) : List α → List α
  | [] => []
  | a :: as => insertSorted le a (sortByLe le as)

/-- `ORDER BY sort_order` on line items. -/
def sortLineItems (l : List LineItem) : List LineItem :=
  sortByLe (fun a b => a.sort_order ≤ b.sort_order) l

/-- `ORDER BY sort_order` on contract tasks. -/
def sortContractTasks (l : List ContractTask) : List ContractTask :=
  sortByLe (fun a b => a.sort_order ≤ b.sort_order) l

/-- `ORDER BY sort_order` on proposal tasks. -/
def sortProposalTasks (l : List ProposalTask) : List ProposalTask :=
  sortByLe (fun a b => a.sort_order ≤ b.sort_order) l

/-- Sum of a rational-valued projection over a list. -/
def sumBy (f : α → ℚ) : List α → ℚ
  | [] => 0
  | a :: as => f a + sumBy f as

/-! ### `app/utils.py` -/

/-- Python's `a or b` on two nullable strings: `None` and `""` are falsy. -/
def pyStrOr (a b : Option String) : Option String :=
  if a = none ∨ a = some "" then b else a

/-- Python rendering of a nullable string inside an f-string:
`None` prints as `"None"`. -/
def pyStr : Option String → String
  | none => "None"
  | some s => s

/-- The characters after the last `-`, if the string contains one:
`inv_num.rsplit("-", 1)` keeps everything after the last dash in
`parts[-1]` when `len(parts) > 1`. -/
def afterLastDash : List Char → Option (List Char)
  | [] => none
  | c :: rest =>
    match afterLastDash rest with
    | some suffix => some suffix
    | none => if c = '-' then some rest else none

/-- ASCII digit value of a character (`str.isdigit` on ASCII input). -/
def charDigit? (c : Char) : Option Nat :=
  if 48 ≤ c.toNat ∧ c.toNat ≤ 57 then some (c.toNat - 48) else none

def digitsValAux (acc : Nat) : List Char → Option Nat
  | [] => some acc
  | c :: cs =>
    match charDigit? c with
    | none => none
    | some d => digitsValAux (acc * 10 + d) cs

/-- `int(cs)` when `cs` is nonempty and all digits (`cs.isdigit()`),
else nothing. -/
def digitsVal : List Char → Option Nat
  | [] => none
  | c :: cs =>
    match charDigit? c with
    | none => none
    | some d => digitsValAux d cs

/-- `int(parts[-1])` after `inv_num.rsplit("-", 1)`, guarded by
`len(parts) > 1 and parts[-1].isdigit()`: the numeric suffix after the
last dash, if any. -/
def numericSuffix (s : String) : Option Nat :=
  match afterLastDash s.data with
  | none => none
  | some cs => digitsVal cs

/-- The `max_num` fold of `next_invoice_number`. -/
def maxNumericSuffix : List Invoice → Nat
  | [] => 0
  | inv :: rest =>
    max (maxNumericSuffix rest) ((numericSuffix inv.invoice_number).getD 0)

/-- `utils.next_invoice_number`: prefix from the project row
(`job_code or project_number`, or the project id when the row is
missing), and `max_num + 1` over ALL invoices of the project, the
soft-deleted ones included. -/
def next_invoice_number (db : DB) (projectId : String) : String :=
  let proj := db.projects.find? (fun p => p.id == projectId)
  let pfx : Option String :=
    match proj with
    | some p => pyStrOr p.job_code p.project_number
    | none => some projectId
  let rows := db.invoices.filter (fun inv => inv.project_id == projectId)
  pyStr pfx ++ "-" ++ toString (maxNumericSuffix rows + 1)

/-! ### `app/routers/contracts.py` — read path -/

/-- The invoice join condition of `_compute_task_billing`'s query:
`li.invoice_id = inv.id AND inv.contract_id = cid AND inv.deleted_at IS NULL`. -/
def isActiveContractInvoice (db : DB) (contractId invoiceId : String) : Bool :=
  db.invoices.any (fun inv =>
    inv.id == invoiceId && inv.contract_id == some contractId &&
      inv.deleted_at == none)

/-- `COALESCE(SUM(li.amount), 0)` for one task name: the per-name group of
`_compute_task_billing`'s `GROUP BY li.name` query. -/
def billed_for_name (db : DB) (contractId taskName : String) : ℚ :=
  sumBy
    (fun li =>
      if li.name == taskName && isActiveContractInvoice db contractId li.invoice_id
      then li.amount else 0)
    db.invoice_line_items

/-- `_compute_task_billing`: overwrite each task's `billed_amount` and
`billed_percent` from active invoice line items. -/
def compute_task_billing (db : DB) (contractId : String)
    (tasks : List ContractTask) : List ContractTask :=
  tasks.map (fun task =>
    let billed := billed_for_name db contractId task.name
    { task with
      billed_amount := billed
      billed_percent := if task.amount ≠ 0 then billed / task.amount * 100 else 0 })

/-- Response of `GET /contracts/{id}`. -/
structure ContractWithTasks where
  contract : Contract
  tasks : List ContractTask
deriving DecidableEq

/-- `get_contract`: load the non-deleted contract, its tasks ordered by
`sort_order`, and computed billing. -/
def get_contract (db : DB) (contractId : String) :
    Except HttpError ContractWithTasks :=
  match db.contracts.find? (fun c => c.id == contractId && c.deleted_at == none) with
  | none => .error (.notFound "Contract not found")
  | some c =>
    let tasks :=
      sortContractTasks (db.contract_tasks.filter (fun t => t.contract_id == contractId))
    .ok ⟨c, compute_task_billing db contractId tasks⟩

/-! ### `app/routers/contracts.py` — `create_invoice_from_contract` -/

/-- One entry of the request body's `tasks` list:
`{"task_id": ..., "percent_this_invoice": ...}`. -/
structure TaskSpec where
  task_id : String
  percent_this_invoice : ℚ
deriving DecidableEq

/-- The request body as `models/invoice.py` defines it: `tasks` (a list
of `{"task_id", "percent_this_invoice"}` dicts per its docstring) and
`pm_email` — and nothing else; in particular no `invoice_number` and no
`skip_sheet` field, although the handler reads both. -/
structure InvoiceFromContract where
  tasks : List TaskSpec
  pm_email : Option String
deriving DecidableEq

/-- A line-item dict built by `create_next_invoice`'s carry-forward loop
(`new_line_items.append({...})`), before insertion. -/
structure PendingLineItem where
  name : String
  description : Option String
  unit_price : ℚ
  quantity : ℚ
  amount : ℚ
  previous_billing : ℚ
deriving DecidableEq

/-- The `INSERT INTO invoice_line_items` loop (`enumerate` gives
`sort_order = i + 1`; `generate_id("li-")` becomes `liIdGen i`). -/
def insertLineItems (invoiceId : String) (liIdGen : Nat → String) (now : Nat) :
    Nat → List PendingLineItem → List LineItem
  | _, [] => []
  | i, li :: rest =>
    { id := liIdGen i
      invoice_id := invoiceId
      sort_order := i + 1
      name := li.name
      description := li.description
      quantity := li.quantity
      unit_price := li.unit_price
      amount := li.amount
      previous_billing := li.previous_billing
      created_at := now } :: insertLineItems invoiceId liIdGen now (i + 1) rest

/-- `POST /contracts/{contract_id}/invoices` as it runs: after the
contract lookup, line 251 evaluates
`data.invoice_number or next_invoice_number(db, project_id)`, but the
`InvoiceFromContract` request model defines no `invoice_number` field,
so Pydantic raises `AttributeError` there — an unhandled 500 — before
any insert.  Only the missing-contract NotFound precedes it. -/
def create_invoice_from_contract (db : DB) (contractId : String)
    (_req : InvoiceFromContract) : Except HttpError (DB × Invoice) :=
  match db.contracts.find? (fun c => c.id == contractId && c.deleted_at == none) with
  | none => .error (.notFound "Contract not found")
  | some _ =>
    .error (.serverError
      "AttributeError: InvoiceFromContract has no attribute invoice_number")

/-! ### `app/routers/invoices.py` — `create_next_invoice` -/

/-- `POST /invoices/{invoice_id}/create-next`. -/
def create_next_invoice (db : DB) (invoiceId : String) (newInvId : String)
    (liIdGen : Nat → String) (now : Nat) : Except HttpError (DB × Invoice) :=
  match db.invoices.find? (fun i => i.id == invoiceId && i.deleted_at == none) with
  | none => .error (.notFound "Invoice not found")
  | some invoice =>
    if invoice.sent_status ≠ "sent" then
      .error (.badRequest "Invoice must be sent before creating next")
    else
      let lineItems :=
        sortLineItems (db.invoice_line_items.filter (fun li => li.invoice_id == invoiceId))
      if lineItems = [] then
        .error (.badRequest "No line items on current invoice")
      else
        let projectId := invoice.project_id
        let newInvoiceNumber := next_invoice_number db projectId
        let newLineItems : List PendingLineItem :=
          lineItems.map (fun li =>
            { name := li.name
              description := li.description
              unit_price := li.unit_price
              quantity := 0
              amount := 0
              previous_billing := li.previous_billing + li.amount })
        let newInvoice : Invoice :=
          { id := newInvId
            invoice_number := newInvoiceNumber
            project_id := projectId
            contract_id := invoice.contract_id
            previous_invoice_id := some invoiceId
            type := "task"
            description := none
            total_due := 0
            sent_status := "unsent"
            paid_status := "unpaid"
            sent_at := none
            paid_at := none
            created_at := now
            deleted_at := none }
        let db' : DB :=
          { db with
            invoices := db.invoices ++ [newInvoice]
            invoice_line_items :=
              db.invoice_line_items ++ insertLineItems newInvId liIdGen now 0 newLineItems
            projects := db.projects.map (fun p =>
              if p.id == projectId then { p with current_invoice_id := some newInvId }
              else p) }
        .ok (db', newInvoice)

/-! ### `app/routers/invoices.py` — `update_invoice` and `delete_invoice` -/

/-- The PATCH body as `models/invoice.py` defines `InvoiceUpdate`: these
are the only fields the request model carries — in particular there is
no `line_items` field, although the handler reads one. -/
structure InvoiceUpdateReq where
  sent_status : Option String
  paid_status : Option String
  paid_at : Option Nat
  total_due : Option ℚ
  description : Option String
  data_path : Option String
  pdf_path : Option String
deriving DecidableEq

/-- `PATCH /invoices/{invoice_id}` as it runs: after the invoice lookup,
line 459 reads `data.line_items`, which the `InvoiceUpdate` model does
not define, so Pydantic raises `AttributeError` — an unhandled 500 —
before any write.  Only the missing-invoice NotFound precedes it. -/
def update_invoice (db : DB) (invoiceId : String) (_req : InvoiceUpdateReq) :
    Except HttpError (DB × Invoice) :=
  match db.invoices.find? (fun i => i.id == invoiceId && i.deleted_at == none) with
  | none => .error (.notFound "Invoice not found")
  | some _ =>
    .error (.serverError "AttributeError: InvoiceUpdate has no attribute line_items")

/-- `DELETE /invoices/{invoice_id}`: soft-delete only; clear the owning
project's `current_invoice_id` when it pointed at this invoice. -/
def delete_invoice (db : DB) (invoiceId : String) (now : Nat) :
    Except HttpError DB :=
  match db.invoices.find? (fun i => i.id == invoiceId && i.deleted_at == none) with
  | none => .error (.notFound "Invoice not found")
  | some inv =>
    let db' : DB :=
      { db with
        invoices := db.invoices.map (fun i =>
          if i.id == invoiceId then { i with deleted_at := some now } else i)
        projects :=
          if inv.project_id == "" then db.projects
          else db.projects.map (fun p =>
            if p.id == inv.project_id && p.current_invoice_id == some invoiceId
            then { p with current_invoice_id := none } else p) }
    .ok db'

/-! ### `app/routers/proposals.py` — `promote_to_contract` -/

/-- The `INSERT INTO contract_tasks` loop of `promote_to_contract`: a 1:1
copy of each proposal task with `billed_amount = billed_percent = 0`
(`generate_id("ctask-")` becomes `ctaskIdGen i`). -/
def copyProposalTasks (contractId : String) (ctaskIdGen : Nat → String)
    (now : Nat) : Nat → List ProposalTask → List ContractTask
  | _, [] => []
  | i, t :: rest =>
    { id := ctaskIdGen i
      contract_id := contractId
      sort_order := t.sort_order
      name := t.name
      description := t.description
      amount := t.amount
      billed_amount := 0
      billed_percent := 0 } :: copyProposalTasks contractId ctaskIdGen now (i + 1) rest

/-- `POST /proposals/{proposal_id}/promote`.  The activity-log insert is
out of scope. -/
def promote_to_contract (db : DB) (proposalId : String)
    (signedAt : Option Nat) (filePath : Option String)
    (newContractId : String) (ctaskIdGen : Nat → String) (now : Nat) :
    Except HttpError (DB × Contract) :=
  match db.proposals.find? (fun p => p.id == proposalId && p.deleted_at == none) with
  | none => .error (.notFound "Proposal not found")
  | some proposal =>
    let projectId := proposal.project_id
    let contract : Contract :=
      { id := newContractId
        project_id := projectId
        total_amount := proposal.total_fee
        signed_at := some (signedAt.getD now)
        file_path := filePath
        notes := none
        created_at := now
        deleted_at := none }
    let tasks :=
      sortProposalTasks (db.proposal_tasks.filter (fun t => t.proposal_id == proposalId))
    let db' : DB :=
      { db with
        contracts := db.contracts ++ [contract]
        contract_tasks :=
          db.contract_tasks ++ copyProposalTasks newContractId ctaskIdGen now 0 tasks
        proposals := db.proposals.map (fun p =>
          if p.id == proposalId then { p with status := "accepted" } else p)
        projects := db.projects.map (fun p =>
          if p.id == projectId then { p with status := "contract" } else p) }
    .ok (db', contract)

/-! ### Spec-side definitions (for comparison with the embedded code) -/

/-- The billed amount as the spec words it (§4.2 read path): sum `amount`
across all invoice line items whose `name` equals the task's name, joined
through `Invoice`, filtered to invoices with `deleted_at IS NULL`
belonging to this contract. -/
def specBilledSum (db : DB) (cid nm : String) : ℚ :=
  sumBy (fun li => li.amount)
    (db.invoice_line_items.filter (fun li =>
      li.name == nm && isActiveContractInvoice db cid li.invoice_id))

/-- The billed amount over the invoices that remain active after one
invoice is removed from consideration (the spec's "the remaining active
invoices"). -/
def specBilledSumExcluding (db : DB) (removedId cid nm : String) : ℚ :=
  sumBy (fun li => li.amount)
    (db.invoice_line_items.filter (fun li =>
      li.name == nm && db.invoices.any (fun inv =>
        inv.id == li.invoice_id && !(inv.id == removedId) &&
          inv.contract_id == some cid && inv.deleted_at == none)))

/-! ### Helper lemmas -/

theorem mem_insertSorted {le : α → α → Bool} {a b : α} :
    ∀ {l : List α}, b ∈ insertSorted le a l ↔ b = a ∨ b ∈ l := by
  intro l
  induction l with
  | nil => simp [insertSorted]
  | cons c cs ih =>
    by_cases h : le a c
    · simp [insertSorted, h, List.mem_cons]
    · simp only [insertSorted, h, if_neg, Bool.false_eq_true, if_false, List.mem_cons, ih]
      tauto

theorem mem_sortByLe {le : α → α → Bool} {a : α} :
    ∀ {l : List α}, a ∈ sortByLe le l ↔ a ∈ l := by
  intro l
  induction l with
  | nil => simp [sortByLe]
  | cons b bs ih => simp [sortByLe, mem_insertSorted, ih]

theorem sortByLe_eq_nil {le : α → α → Bool} :
    ∀ {l : List α}, sortByLe le l = [] ↔ l = [] := by
  intro l
  cases l with
  | nil => simp [sortByLe]
  | cons b bs =>
    simp only [sortByLe]
    constructor
    · intro h
      cases hs : sortByLe le bs with
      | nil => rw [hs] at h; simp [insertSorted] at h
      | cons c cs =>
        rw [hs] at h
        simp only [insertSorted] at h
        by_cases hle : le b c <;> simp [hle] at h
    · intro h; cases h

theorem sumBy_congr {f g : α → ℚ} :
    ∀ {l : List α}, (∀ a ∈ l, f a = g a) → sumBy f l = sumBy g l := by
  intro l
  induction l with
  | nil => intro _; rfl
  | cons a as ih =>
    intro h
    simp only [sumBy, h a (List.mem_cons_self a as),
      ih (fun b hb => h b (List.mem_cons_of_mem a hb))]

theorem sumBy_filter (f : α → ℚ) (p : α → Bool) :
    ∀ l : List α, sumBy f (l.filter p) = sumBy (fun a => if p a then f a else 0) l := by
  intro l
  induction l with
  | nil => rfl
  | cons a as ih =>
    by_cases h : p a
    · simp [List.filter_cons, h, sumBy, ih]
    · simp [List.filter_cons, h, sumBy, ih]

theorem listAny_congr {f g : α → Bool} :
    ∀ {l : List α}, (∀ a ∈ l, f a = g a) → l.any f = l.any g := by
  intro l
  induction l with
  | nil => intro _; rfl
  | cons a as ih =>
    intro h
    simp only [List.any_cons, h a (List.mem_cons_self a as),
      ih (fun b hb => h b (List.mem_cons_of_mem a hb))]

/-- `billed_for_name` computes exactly the spec's billed-amount sum. -/
theorem billed_for_name_eq_spec (db : DB) (cid nm : String) :
    billed_for_name db cid nm = specBilledSum db cid nm := by
  unfold billed_for_name specBilledSum
  rw [sumBy_filter]

theorem mem_insertLineItems {invId : String} {gen : Nat → String} {now : Nat}
    {p : PendingLineItem} :
    ∀ {pend : List PendingLineItem} {i : Nat}, p ∈ pend →
      ∃ li ∈ insertLineItems invId gen now i pend,
        li.invoice_id = invId ∧ li.name = p.name ∧ li.description = p.description ∧
        li.quantity = p.quantity ∧ li.unit_price = p.unit_price ∧
        li.amount = p.amount ∧ li.previous_billing = p.previous_billing := by
  intro pend
  induction pend with
  | nil => intro i h; cases h
  | cons q qs ih =>
    intro i h
    rcases List.mem_cons.mp h with h | h
    · subst h
      exact ⟨_, List.mem_cons_self _ _, rfl, rfl, rfl, rfl, rfl, rfl, rfl⟩
    · obtain ⟨li, hli, hp⟩ := ih (i := i + 1) h
      exact ⟨li, List.mem_cons_of_mem _ hli, hp⟩

theorem insertLineItems_ne_nil {invId : String} {gen : Nat → String} {now : Nat}
    {pend : List PendingLineItem} {i : Nat} (h : pend ≠ []) :
    insertLineItems invId gen now i pend ≠ [] := by
  cases pend with
  | nil => exact absurd rfl h
  | cons q qs => simp [insertLineItems]

theorem mem_copyProposalTasks {cid : String} {gen : Nat → String} {now : Nat}
    {t : ProposalTask} :
    ∀ {ts : List ProposalTask} {i : Nat}, t ∈ ts →
      ∃ ct ∈ copyProposalTasks cid gen now i ts,
        ct.contract_id = cid ∧ ct.sort_order = t.sort_order ∧ ct.name = t.name ∧
        ct.description = t.description ∧ ct.amount = t.amount ∧
        ct.billed_amount = 0 ∧ ct.billed_percent = 0 := by
  intro ts
  induction ts with
  | nil => intro i h; cases h
  | cons q qs ih =>
    intro i h
    rcases List.mem_cons.mp h with h | h
    · subst h
      exact ⟨_, List.mem_cons_self _ _, rfl, rfl, rfl, rfl, rfl, rfl, rfl⟩
    · obtain ⟨ct, hct, hp⟩ := ih (i := i + 1) h
      exact ⟨ct, List.mem_cons_of_mem _ hct, hp⟩

/-- After soft-deleting invoice `delId`, the active-invoice join condition
holds exactly for the previously active invoices other than `delId`. -/
theorem isActive_after_delete (db : DB) (delId : String) (now : Nat)
    (cid iid : String) (dbx : DB)
    (hinv : dbx.invoices = db.invoices.map (fun i =>
      if i.id == delId then { i with deleted_at := some now } else i)) :
    isActiveContractInvoice dbx cid iid =
      db.invoices.any (fun inv =>
        inv.id == iid && !(inv.id == delId) &&
          inv.contract_id == some cid && inv.deleted_at == none) := by
  unfold isActiveContractInvoice
  rw [hinv, List.any_map]
  apply listAny_congr
  intro inv _
  by_cases h : inv.id == delId
  · simp [Function.comp, h]
  · simp [Function.comp, h]

/-- After soft-deleting one invoice, the computed billed state equals the
spec-side sum over the remaining active invoices. -/
theorem billed_after_delete (db : DB) (delId : String) (now : Nat)
    (cid nm : String) (dbx : DB)
    (hinv : dbx.invoices = db.invoices.map (fun i =>
      if i.id == delId then { i with deleted_at := some now } else i))
    (hli : dbx.invoice_line_items = db.invoice_line_items) :
    billed_for_name dbx cid nm = specBilledSumExcluding db delId cid nm := by
  unfold billed_for_name specBilledSumExcluding
  rw [hli, sumBy_filter]
  apply sumBy_congr
  intro li _
  rw [isActive_after_delete db delId now cid li.invoice_id dbx hinv]

/-! ### Concrete states for witnesses and counterexamples -/

/-- Deterministic stand-in for `generate_id` in concrete runs. -/
def genId (n : Nat) : String := "id-" ++ toString n

def pP1 : Project :=
  { id := "P1", job_code := some "PROJ", project_number := some "26-001",
    status := "contract", current_invoice_id := some "inv-1", deleted_at := none }

def cCon1 : Contract :=
  { id := "con-1", project_id := "P1", total_amount := 10000, signed_at := some 1,
    file_path := none, notes := none, created_at := 1, deleted_at := none }

def tDesign : ContractTask :=
  { id := "ctask-1", contract_id := "con-1", sort_order := 1, name := "Design",
    description := none, amount := 10000, billed_amount := 0, billed_percent := 0 }

def iInv1 : Invoice :=
  { id := "inv-1", invoice_number := "PROJ-1", project_id := "P1",
    contract_id := some "con-1", previous_invoice_id := none, type := "task",
    description := none, total_due := 5000, sent_status := "sent",
    paid_status := "unpaid", sent_at := some 2, paid_at := none,
    created_at := 2, deleted_at := none }

/-- An unsent invoice (separate project so it does not disturb billing). -/
def iInvU : Invoice :=
  { id := "inv-u", invoice_number := "U", project_id := "P2",
    contract_id := none, previous_invoice_id := none, type := "list",
    description := none, total_due := 0, sent_status := "unsent",
    paid_status := "unpaid", sent_at := none, paid_at := none,
    created_at := 3, deleted_at := none }

/-- A sent invoice with no line items. -/
def iInvE : Invoice :=
  { id := "inv-e", invoice_number := "E", project_id := "P2",
    contract_id := none, previous_invoice_id := none, type := "list",
    description := none, total_due := 0, sent_status := "sent",
    paid_status := "unpaid", sent_at := some 4, paid_at := none,
    created_at := 4, deleted_at := none }

def liDesign : LineItem :=
  { id := "li-1", invoice_id := "inv-1", sort_order := 1, name := "Design",
    description := none, quantity := 50, unit_price := 10000, amount := 5000,
    previous_billing := 0, created_at := 2 }

def propOne : Proposal :=
  { id := "prop-1", project_id := "P1", total_fee := 1000, status := "sent",
    deleted_at := none }

/-- A proposal with no tasks. -/
def propEmpty : Proposal :=
  { id := "prop-e", project_id := "P1", total_fee := 500, status := "draft",
    deleted_at := none }

def pt1 : ProposalTask :=
  { id := "pt-1", proposal_id := "prop-1", sort_order := 1, name := "T1",
    description := none, amount := 300 }

def pt2 : ProposalTask :=
  { id := "pt-2", proposal_id := "prop-1", sort_order := 2, name := "T2",
    description := none, amount := 700 }

def sampleDb : DB :=
  { projects := [pP1], contracts := [cCon1], contract_tasks := [tDesign],
    invoices := [iInv1, iInvU, iInvE], invoice_line_items := [liDesign],
    proposals := [propOne, propEmpty], proposal_tasks := [pt1, pt2] }

/-! ### C1 -/

/-- C1: for every contract and every one of its tasks, the billed state
returned by reading the contract satisfies `billed_amount` = the sum of
matching active line-item amounts and
`billed_percent = billed_amount / amount * 100`, with 0 when the task's
amount is 0. -/
theorem c1_contract_read_billed_state (db : DB) (cid : String)
    (res : ContractWithTasks) (h : get_contract db cid = .ok res) :
    ∀ t ∈ res.tasks,
      t.billed_amount = specBilledSum db cid t.name ∧
      t.billed_percent =
        (if t.amount = 0 then 0 else t.billed_amount / t.amount * 100) := by
  intro t ht
  unfold get_contract at h
  cases hfind : db.contracts.find? (fun c => c.id == cid && c.deleted_at == none) with
  | none => rw [hfind] at h; cases h
  | some c =>
    rw [hfind] at h
    simp only [Except.ok.injEq] at h
    subst h
    simp only [compute_task_billing] at ht
    obtain ⟨src, _, heq⟩ := List.mem_map.mp ht
    subst heq
    refine ⟨billed_for_name_eq_spec db cid src.name, ?_⟩
    by_cases hz : src.amount = 0
    · simp [hz]
    · simp [hz]

def c1res : ContractWithTasks :=
  match get_contract sampleDb "con-1" with
  | .ok r => r
  | .error _ => ⟨cCon1, []⟩

def c1task : ContractTask :=
  match c1res.tasks with
  | t :: _ => t
  | [] => tDesign

theorem c1_witness :
    c1task.billed_amount = specBilledSum sampleDb "con-1" c1task.name ∧
    c1task.billed_percent =
      (if c1task.amount = 0 then 0 else c1task.billed_amount / c1task.amount * 100) :=
  c1_contract_read_billed_state sampleDb "con-1" c1res (by rfl) c1task
    (by exact List.mem_cons_self _ _)

/-! ### C2 -/

/-- C2: the claimed write path cannot run as shipped.  Whenever the
contract is found, the handler dies with `AttributeError` reading
`data.invoice_number` (the `InvoiceFromContract` model has no such
field), an unhandled 500 with no invoice and no line items written; a
missing or soft-deleted contract still yields NotFound first. -/
theorem c2_create_invoice_attribute_error (db : DB) (contractId : String)
    (req : InvoiceFromContract) :
    (∀ con,
      db.contracts.find? (fun c => c.id == contractId && c.deleted_at == none) =
        some con →
      create_invoice_from_contract db contractId req =
        .error (.serverError
          "AttributeError: InvoiceFromContract has no attribute invoice_number")) ∧
    (db.contracts.find? (fun c => c.id == contractId && c.deleted_at == none) = none →
      create_invoice_from_contract db contractId req =
        .error (.notFound "Contract not found")) := by
  constructor
  · intro con hfind
    unfold create_invoice_from_contract
    rw [hfind]
  · intro hfind
    unfold create_invoice_from_contract
    rw [hfind]

/-- The request the repository's own test posts to this endpoint. -/
def c2req : InvoiceFromContract :=
  { tasks := [{ task_id := "ctask-1", percent_this_invoice := 50 }], pm_email := none }

theorem c2_witness :
    create_invoice_from_contract sampleDb "con-1" c2req =
      .error (.serverError
        "AttributeError: InvoiceFromContract has no attribute invoice_number") ∧
    create_invoice_from_contract sampleDb "ghost" c2req =
      .error (.notFound "Contract not found") :=
  ⟨(c2_create_invoice_attribute_error sampleDb "con-1" c2req).1 cCon1 (by rfl),
   (c2_create_invoice_attribute_error sampleDb "ghost" c2req).2 (by rfl)⟩

/-! ### C3 -/

/-- C3: create-next on a non-deleted invoice whose `sent_status` is not
`sent` fails with the validation error and performs no writes (the
operation aborts before any insert). -/
theorem c3_create_next_requires_sent (db : DB) (invoiceId newInvId : String)
    (gen : Nat → String) (now : Nat) (inv : Invoice)
    (hfind : db.invoices.find? (fun i => i.id == invoiceId && i.deleted_at == none) =
      some inv)
    (hsent : inv.sent_status ≠ "sent") :
    create_next_invoice db invoiceId newInvId gen now =
      .error (.badRequest "Invoice must be sent before creating next") := by
  unfold create_next_invoice
  rw [hfind]
  simp only [if_pos hsent]

theorem c3_witness :
    create_next_invoice sampleDb "inv-u" "inv-x" genId 6 =
      .error (.badRequest "Invoice must be sent before creating next") :=
  c3_create_next_requires_sent sampleDb "inv-u" "inv-x" genId 6 iInvU
    (by rfl) (by decide)

/-! ### C4 -/

/-- C4: create-next on a sent invoice with line items produces a new
invoice whose line items carry `previous_billing = old.previous_billing +
old.amount` with `quantity = 0` and `amount = 0`, chained via
`previous_invoice_id` to the current invoice, on the same project and
contract, numbered by `next_invoice_number`, and re-points the project's
`current_invoice_id`. -/
theorem c4_create_next_carry_forward (db : DB) (invoiceId newInvId : String)
    (gen : Nat → String) (now : Nat) (cur : Invoice)
    (hfind : db.invoices.find? (fun i => i.id == invoiceId && i.deleted_at == none) =
      some cur)
    (hsent : cur.sent_status = "sent")
    (hne : db.invoice_line_items.filter (fun li => li.invoice_id == invoiceId) ≠ []) :
    ∃ db' inv, create_next_invoice db invoiceId newInvId gen now = .ok (db', inv) ∧
      inv.previous_invoice_id = some invoiceId ∧
      inv.project_id = cur.project_id ∧
      inv.contract_id = cur.contract_id ∧
      inv.invoice_number = next_invoice_number db cur.project_id ∧
      db'.invoices = db.invoices ++ [inv] ∧
      (∃ newLis, db'.invoice_line_items = db.invoice_line_items ++ newLis ∧
        ∀ old ∈ db.invoice_line_items, old.invoice_id = invoiceId →
          ∃ nw ∈ newLis, nw.name = old.name ∧
            nw.previous_billing = old.previous_billing + old.amount ∧
            nw.quantity = 0 ∧ nw.amount = 0) ∧
      db'.projects = db.projects.map (fun p =>
        if p.id == cur.project_id then { p with current_invoice_id := some newInvId }
        else p) := by
  have hsorted :
      sortLineItems (db.invoice_line_items.filter (fun li => li.invoice_id == invoiceId)) ≠
        [] := by
    intro hh
    exact hne (sortByLe_eq_nil.mp hh)
  unfold create_next_invoice
  rw [hfind]
  simp only [if_neg (show ¬cur.sent_status ≠ "sent" by simp [hsent]), if_neg hsorted]
  refine ⟨_, _, rfl, rfl, rfl, rfl, rfl, rfl, ⟨_, rfl, ?_⟩, rfl⟩
  intro old hold hoi
  have h1 : old ∈ db.invoice_line_items.filter (fun li => li.invoice_id == invoiceId) :=
    List.mem_filter.mpr ⟨hold, by simp [hoi]⟩
  have h2 : old ∈
      sortLineItems (db.invoice_line_items.filter (fun li => li.invoice_id == invoiceId)) :=
    mem_sortByLe.mpr h1
  have h3 :
      ({ name := old.name, description := old.description, unit_price := old.unit_price,
         quantity := 0, amount := 0,
         previous_billing := old.previous_billing + old.amount } : PendingLineItem) ∈
      (sortLineItems
        (db.invoice_line_items.filter (fun li => li.invoice_id == invoiceId))).map
        (fun li =>
          { name := li.name, description := li.description, unit_price := li.unit_price,
            quantity := 0, amount := 0,
            previous_billing := li.previous_billing + li.amount }) :=
    List.mem_map_of_mem _ h2
  obtain ⟨nw, hnw, _, hname, _, hqty, _, hamt, hprev⟩ := mem_insertLineItems h3
  exact ⟨nw, hnw, hname, hprev, hqty, hamt⟩

def c4res : Except HttpError (DB × Invoice) :=
  create_next_invoice sampleDb "inv-1" "inv-3" genId 7

def c4dbAfter : DB :=
  match c4res with
  | .ok (d, _) => d
  | .error _ => sampleDb

def c4inv : Invoice :=
  match c4res with
  | .ok (_, i) => i
  | .error _ => iInv1

theorem c4_witness :
    create_next_invoice sampleDb "inv-1" "inv-3" genId 7 = .ok (c4dbAfter, c4inv) ∧
    c4inv.previous_invoice_id = some "inv-1" ∧
    c4inv.invoice_number = next_invoice_number sampleDb "P1" := by
  obtain ⟨db', inv, hok, hprev, hproj, hcid, hnum, hinvs, hlis, hprojs⟩ :=
    c4_create_next_carry_forward sampleDb "inv-1" "inv-3" genId 7 iInv1
      (by rfl) (by rfl) (by decide)
  have hlink : create_next_invoice sampleDb "inv-1" "inv-3" genId 7 =
      .ok (c4dbAfter, c4inv) := by rfl
  have h2 := hlink.symm.trans hok
  simp only [Except.ok.injEq, Prod.mk.injEq] at h2
  obtain ⟨hd, hi⟩ := h2
  subst hd
  subst hi
  exact ⟨hlink, hprev, hnum⟩

/-! ### C5 -/

/-- A project row whose `job_code` and `project_number` are both NULL
(exactly how the repository's test suite seeds its `TEST01` project). -/
def pTest01 : Project :=
  { id := "TEST01", job_code := none, project_number := none,
    status := "contract", current_invoice_id := none, deleted_at := none }

def dbC5 : DB :=
  { projects := [pTest01], contracts := [], contract_tasks := [], invoices := [],
    invoice_line_items := [], proposals := [], proposal_tasks := [] }

/-- A soft-deleted invoice numbered `PROJ-1`. -/
def iDeleted : Invoice :=
  { id := "inv-d", invoice_number := "PROJ-1", project_id := "P1",
    contract_id := none, previous_invoice_id := none, type := "list",
    description := none, total_due := 100, sent_status := "unsent",
    paid_status := "unpaid", sent_at := none, paid_at := none,
    created_at := 1, deleted_at := some 2 }

/-- A project with a job code whose only invoice `PROJ-1` is soft-deleted. -/
def dbC5del : DB :=
  { projects := [{ pP1 with current_invoice_id := none }],
    contracts := [], contract_tasks := [], invoices := [iDeleted],
    invoice_line_items := [], proposals := [], proposal_tasks := [] }

/-- C5: when the project row exists but both `job_code` and
`project_number` are NULL, the code renders the Python `None` as the
prefix instead of falling back to the project id, so the first invoice of
the test-fixture project `TEST01` is numbered `None-1`, not `TEST01-1`;
the MAX-based suffix itself does survive soft-deletion (`PROJ-2` after
deleting `PROJ-1`). -/
theorem c5_prefix_renders_none :
    next_invoice_number dbC5 "TEST01" = "None-1" ∧
    "None-1" ≠ "TEST01-1" ∧
    next_invoice_number dbC5del "P1" = "PROJ-2" := by
  refine ⟨by rfl, by decide, by rfl⟩

/-! ### C6 -/

/-- C6: deleting a non-deleted invoice soft-deletes the row only (line
items retained), clears the owning project's `current_invoice_id` exactly
when it pointed at this invoice, performs no billing reversal — computed
billed state afterwards equals the sum over the remaining active
invoices — and deleting an absent or already-deleted invoice returns
NotFound with no state change. -/
theorem c6_delete_invoice_soft (db : DB) (invoiceId : String) (now : Nat) :
    (∀ inv,
      db.invoices.find? (fun i => i.id == invoiceId && i.deleted_at == none) =
        some inv →
      inv.project_id ≠ "" →
      ∃ db', delete_invoice db invoiceId now = .ok db' ∧
        db'.invoices = db.invoices.map (fun i =>
          if i.id == invoiceId then { i with deleted_at := some now } else i) ∧
        db'.invoice_line_items = db.invoice_line_items ∧
        db'.projects = db.projects.map (fun p =>
          if p.id == inv.project_id && p.current_invoice_id == some invoiceId
          then { p with current_invoice_id := none } else p) ∧
        ∀ cid nm, billed_for_name db' cid nm =
          specBilledSumExcluding db invoiceId cid nm) ∧
    (db.invoices.find? (fun i => i.id == invoiceId && i.deleted_at == none) = none →
      delete_invoice db invoiceId now = .error (.notFound "Invoice not found")) := by
  constructor
  · intro inv hfind hpid
    unfold delete_invoice
    rw [hfind]
    simp only [if_neg (show ¬(inv.project_id == "") = true by simp [hpid])]
    refine ⟨_, rfl, rfl, rfl, rfl, ?_⟩
    intro cid nm
    exact billed_after_delete db invoiceId now cid nm _ rfl rfl
  · intro hfind
    unfold delete_invoice
    rw [hfind]

def c6res : Except HttpError DB := delete_invoice sampleDb "inv-1" 9

def c6dbAfter : DB :=
  match c6res with
  | .ok d => d
  | .error _ => sampleDb

theorem c6_witness :
    delete_invoice sampleDb "inv-1" 9 = .ok c6dbAfter ∧
    billed_for_name c6dbAfter "con-1" "Design" =
      specBilledSumExcluding sampleDb "inv-1" "con-1" "Design" := by
  obtain ⟨db', hok, hinvs, hlis, hprojs, hbill⟩ :=
    (c6_delete_invoice_soft sampleDb "inv-1" 9).1 iInv1 (by rfl) (by decide)
  have hlink : delete_invoice sampleDb "inv-1" 9 = .ok c6dbAfter := by rfl
  have h2 := hlink.symm.trans hok
  simp only [Except.ok.injEq] at h2
  subst h2
  exact ⟨hlink, hbill "con-1" "Design"⟩

/-! ### C7 -/

/-- C7: promoting a non-deleted proposal creates a contract under the
proposal's project with `total_amount = total_fee` and
`signed_at = provided or now`, copies every proposal task 1:1 (sort
order, name, description, amount preserved; billed state zeroed), marks
the proposal accepted and the project's status `contract`; a missing or
soft-deleted proposal yields NotFound. -/
theorem c7_promote_to_contract (db : DB) (proposalId : String)
    (signedAt : Option Nat) (filePath : Option String) (newCid : String)
    (gen : Nat → String) (now : Nat) :
    (∀ p, db.proposals.find? (fun q => q.id == proposalId && q.deleted_at == none) =
        some p →
      ∃ db' c, promote_to_contract db proposalId signedAt filePath newCid gen now =
          .ok (db', c) ∧
        c.project_id = p.project_id ∧
        c.total_amount = p.total_fee ∧
        c.signed_at = some (signedAt.getD now) ∧
        db'.contracts = db.contracts ++ [c] ∧
        (∃ copied, db'.contract_tasks = db.contract_tasks ++ copied ∧
          ∀ t ∈ db.proposal_tasks, t.proposal_id = proposalId →
            ∃ ct ∈ copied, ct.contract_id = c.id ∧ ct.sort_order = t.sort_order ∧
              ct.name = t.name ∧ ct.description = t.description ∧
              ct.amount = t.amount ∧ ct.billed_amount = 0 ∧ ct.billed_percent = 0) ∧
        db'.proposals = db.proposals.map (fun q =>
          if q.id == proposalId then { q with status := "accepted" } else q) ∧
        db'.projects = db.projects.map (fun q =>
          if q.id == p.project_id then { q with status := "contract" } else q)) ∧
    (db.proposals.find? (fun q => q.id == proposalId && q.deleted_at == none) = none →
      promote_to_contract db proposalId signedAt filePath newCid gen now =
        .error (.notFound "Proposal not found")) := by
  constructor
  · intro p hfind
    unfold promote_to_contract
    rw [hfind]
    refine ⟨_, _, rfl, rfl, rfl, rfl, rfl, ⟨_, rfl, ?_⟩, rfl, rfl⟩
    intro t ht hpid
    have h1 : t ∈ db.proposal_tasks.filter (fun q => q.proposal_id == proposalId) :=
      List.mem_filter.mpr ⟨ht, by simp [hpid]⟩
    have h2 : t ∈ sortProposalTasks
        (db.proposal_tasks.filter (fun q => q.proposal_id == proposalId)) :=
      mem_sortByLe.mpr h1
    obtain ⟨ct, hct, hcid, hso, hname, hdesc, hamt, hba, hbp⟩ :=
      mem_copyProposalTasks h2
    exact ⟨ct, hct, hcid, hso, hname, hdesc, hamt, hba, hbp⟩
  · intro hfind
    unfold promote_to_contract
    rw [hfind]

def c7res : Except HttpError (DB × Contract) :=
  promote_to_contract sampleDb "prop-1" none none "con-2" genId 9

def c7dbAfter : DB :=
  match c7res with
  | .ok (d, _) => d
  | .error _ => sampleDb

def c7contract : Contract :=
  match c7res with
  | .ok (_, c) => c
  | .error _ => cCon1

theorem c7_witness :
    promote_to_contract sampleDb "prop-1" none none "con-2" genId 9 =
      .ok (c7dbAfter, c7contract) ∧
    c7contract.total_amount = 1000 ∧
    c7dbAfter.contracts = sampleDb.contracts ++ [c7contract] := by
  obtain ⟨db', c, hok, hproj, htot, hsig, hcs, hcopied, hprops, hprojs⟩ :=
    (c7_promote_to_contract sampleDb "prop-1" none none "con-2" genId 9).1
      propOne (by rfl)
  have hlink : promote_to_contract sampleDb "prop-1" none none "con-2" genId 9 =
      .ok (c7dbAfter, c7contract) := by rfl
  have h2 := hlink.symm.trans hok
  simp only [Except.ok.injEq, Prod.mk.injEq] at h2
  obtain ⟨hd, hc⟩ := h2
  subst hd
  subst hc
  exact ⟨hlink, htot, hcs⟩

/-! ### C8 -/

def c8res : Except HttpError (DB × Contract) :=
  promote_to_contract sampleDb "prop-e" none none "con-9" genId 9

def c8dbAfter : DB :=
  match c8res with
  | .ok (d, _) => d
  | .error _ => sampleDb

def c8contract : Contract :=
  match c8res with
  | .ok (_, c) => c
  | .error _ => cCon1

/-- C8 counterexample: `prop-e` has no tasks, yet promotion succeeds and
writes a contract row — there is no PreconditionFailed guard in
`promote_to_contract`. -/
theorem c8_counterexample :
    sampleDb.proposal_tasks.filter (fun t => t.proposal_id == "prop-e") = [] ∧
    promote_to_contract sampleDb "prop-e" none none "con-9" genId 9 =
      .ok (c8dbAfter, c8contract) ∧
    c8dbAfter.contracts = sampleDb.contracts ++ [c8contract] :=
  ⟨rfl, rfl, rfl⟩

/-- C8 (amended): promoting a proposal with no tasks does not fail — it
creates a contract with `total_amount = total_fee` and zero copied
contract tasks, and still marks the proposal accepted and sets the
project's status to `contract`. -/
theorem c8_promote_no_tasks_succeeds (db : DB) (proposalId : String)
    (signedAt : Option Nat) (filePath : Option String) (newCid : String)
    (gen : Nat → String) (now : Nat) (p : Proposal)
    (hfind : db.proposals.find? (fun q => q.id == proposalId && q.deleted_at == none) =
      some p)
    (hno : db.proposal_tasks.filter (fun t => t.proposal_id == proposalId) = []) :
    ∃ db' c, promote_to_contract db proposalId signedAt filePath newCid gen now =
        .ok (db', c) ∧
      db'.contracts = db.contracts ++ [c] ∧
      db'.contract_tasks = db.contract_tasks ∧
      c.total_amount = p.total_fee ∧
      db'.proposals = db.proposals.map (fun q =>
        if q.id == proposalId then { q with status := "accepted" } else q) ∧
      db'.projects = db.projects.map (fun q =>
        if q.id == p.project_id then { q with status := "contract" } else q) := by
  unfold promote_to_contract
  rw [hfind, hno]
  refine ⟨_, _, rfl, rfl, ?_, rfl, rfl, rfl⟩
  show db.contract_tasks ++ copyProposalTasks newCid gen now 0 (sortProposalTasks []) =
    db.contract_tasks
  simp [sortProposalTasks, sortByLe, copyProposalTasks]

theorem c8_witness :
    promote_to_contract sampleDb "prop-e" none none "con-9" genId 9 =
      .ok (c8dbAfter, c8contract) ∧
    c8dbAfter.contract_tasks = sampleDb.contract_tasks ∧
    c8contract.total_amount = 500 ∧
    c8dbAfter.projects = sampleDb.projects.map (fun q =>
      if q.id == "P1" then { q with status := "contract" } else q) := by
  obtain ⟨db', c, hok, hcs, hct, htot, hprops, hprojstat⟩ :=
    c8_promote_no_tasks_succeeds sampleDb "prop-e" none none "con-9" genId 9
      propEmpty (by rfl) (by rfl)
  have hlink : promote_to_contract sampleDb "prop-e" none none "con-9" genId 9 =
      .ok (c8dbAfter, c8contract) := by rfl
  have h2 := hlink.symm.trans hok
  simp only [Except.ok.injEq, Prod.mk.injEq] at h2
  obtain ⟨hd, hc⟩ := h2
  subst hd
  subst hc
  exact ⟨hlink, hct, htot, hprojstat⟩

/-! ### C9 -/

/-- An invoice with two line items, the state on which the PATCH crash
is exhibited. -/
def iInv9 : Invoice :=
  { id := "inv-9", invoice_number := "Q-1", project_id := "Q",
    contract_id := none, previous_invoice_id := none, type := "task",
    description := none, total_due := 150, sent_status := "unsent",
    paid_status := "unpaid", sent_at := none, paid_at := none,
    created_at := 1, deleted_at := none }

def li9a : LineItem :=
  { id := "li-a", invoice_id := "inv-9", sort_order := 1, name := "A",
    description := none, quantity := 50, unit_price := 100, amount := 50,
    previous_billing := 0, created_at := 1 }

def li9b : LineItem :=
  { id := "li-b", invoice_id := "inv-9", sort_order := 2, name := "B",
    description := none, quantity := 50, unit_price := 200, amount := 100,
    previous_billing := 0, created_at := 1 }

def db9 : DB :=
  { projects := [], contracts := [], contract_tasks := [],
    invoices := [iInv9], invoice_line_items := [li9a, li9b],
    proposals := [], proposal_tasks := [] }

/-- The parsed body of any PATCH on an invoice: `InvoiceUpdate` silently
drops an unknown `line_items` key, so even a request that submits line
items parses to this. -/
def c9req : InvoiceUpdateReq :=
  { sent_status := none, paid_status := none, paid_at := none,
    total_due := none, description := none, data_path := none, pdf_path := none }

/-- C9: the PATCH handler cannot reach its line-item/total_due logic as
shipped.  Whenever the invoice is found, the handler dies with
`AttributeError` reading `data.line_items` (the `InvoiceUpdate` model has
no such field), an unhandled 500 with nothing written — so no PATCH ever
recomputes or stores `total_due`; a missing or soft-deleted invoice
still yields NotFound first. -/
theorem c9_update_invoice_attribute_error (db : DB) (invoiceId : String)
    (req : InvoiceUpdateReq) :
    (∀ inv,
      db.invoices.find? (fun i => i.id == invoiceId && i.deleted_at == none) =
        some inv →
      update_invoice db invoiceId req =
        .error (.serverError
          "AttributeError: InvoiceUpdate has no attribute line_items")) ∧
    (db.invoices.find? (fun i => i.id == invoiceId && i.deleted_at == none) = none →
      update_invoice db invoiceId req = .error (.notFound "Invoice not found")) := by
  constructor
  · intro inv hfind
    unfold update_invoice
    rw [hfind]
  · intro hfind
    unfold update_invoice
    rw [hfind]

theorem c9_witness :
    update_invoice db9 "inv-9" c9req =
      .error (.serverError
        "AttributeError: InvoiceUpdate has no attribute line_items") ∧
    update_invoice db9 "ghost" c9req = .error (.notFound "Invoice not found") :=
  ⟨(c9_update_invoice_attribute_error db9 "inv-9" c9req).1 iInv9 (by rfl),
   (c9_update_invoice_attribute_error db9 "ghost" c9req).2 (by rfl)⟩

/-! ### C10 -/

/-- C10: create-next on a sent invoice with no line items fails with the
"No line items on current invoice" validation error and writes nothing;
conversely, any successful create-next appends a nonempty batch of line
items, so every invoice it produces has at least one. -/
theorem c10_create_next_empty_guard (db : DB) (invoiceId newInvId : String)
    (gen : Nat → String) (now : Nat) :
    (∀ inv,
      db.invoices.find? (fun i => i.id == invoiceId && i.deleted_at == none) =
        some inv →
      inv.sent_status = "sent" →
      db.invoice_line_items.filter (fun li => li.invoice_id == invoiceId) = [] →
      create_next_invoice db invoiceId newInvId gen now =
        .error (.badRequest "No line items on current invoice")) ∧
    (∀ db' inv, create_next_invoice db invoiceId newInvId gen now = .ok (db', inv) →
      ∃ newLis, db'.invoice_line_items = db.invoice_line_items ++ newLis ∧
        newLis ≠ []) := by
  constructor
  · intro inv hfind hsent hempty
    unfold create_next_invoice
    rw [hfind]
    simp only [if_neg (show ¬inv.sent_status ≠ "sent" by simp [hsent])]
    rw [if_pos (by rw [hempty]; rfl)]
  · intro db' inv h
    unfold create_next_invoice at h
    cases hfind : db.invoices.find? (fun i => i.id == invoiceId && i.deleted_at == none) with
    | none => rw [hfind] at h; cases h
    | some cur =>
      rw [hfind] at h
      by_cases hsent : cur.sent_status ≠ "sent"
      · simp only [if_pos hsent] at h; cases h
      · simp only [if_neg hsent] at h
        by_cases hempty : sortLineItems
            (db.invoice_line_items.filter (fun li => li.invoice_id == invoiceId)) = []
        · rw [if_pos hempty] at h; cases h
        · rw [if_neg hempty] at h
          simp only [Except.ok.injEq, Prod.mk.injEq] at h
          obtain ⟨hdb, _⟩ := h
          subst hdb
          refine ⟨_, rfl, ?_⟩
          apply insertLineItems_ne_nil
          simp only [ne_eq, List.map_eq_nil_iff]
          exact hempty

def c10res : Except HttpError (DB × Invoice) :=
  create_next_invoice sampleDb "inv-1" "inv-z" genId 8

def c10dbAfter : DB :=
  match c10res with
  | .ok (d, _) => d
  | .error _ => sampleDb

def c10inv : Invoice :=
  match c10res with
  | .ok (_, i) => i
  | .error _ => iInv1

theorem c10_witness :
    create_next_invoice sampleDb "inv-e" "inv-y" genId 6 =
      .error (.badRequest "No line items on current invoice") ∧
    (∃ newLis, c10dbAfter.invoice_line_items =
        sampleDb.invoice_line_items ++ newLis ∧ newLis ≠ []) := by
  constructor
  · exact (c10_create_next_empty_guard sampleDb "inv-e" "inv-y" genId 6).1
      iInvE (by rfl) (by rfl) (by rfl)
  · exact (c10_create_next_empty_guard sampleDb "inv-1" "inv-z" genId 8).2
      c10dbAfter c10inv (by rfl)
